import Mathlib

/-!
# secsurf: security headers set by the `New` and `NewAlwaysSTS` handler wrappers

A shallow embedding of `src/secsurf.go` together with the part of the Go
standard library it calls (`net/http.Header.Set`, `net/http.Header.Get` and
`net/textproto.CanonicalMIMEHeaderKey`).

Modelling conventions.

* A Go `http.Header` is a `map[string][]string`.  It is embedded as a total
  lookup function from keys to optional value lists (`none` = key absent), so
  that equality of two headers is equality of the two maps, independent of
  any iteration order.
* A handler is an effectful procedure.  It is embedded by explicit state
  passing: it receives the response writer state, the request and the state
  `σ` of everything else it can touch, and yields the final response writer
  state, the final outer state and the value it panicked with, if any.  A Go
  panic does not undo earlier writes, hence the outcome always carries a
  state.
* The request pointer and the header map returned by `w.Header()` are taken
  to be non-nil, as they are for every request dispatched by `net/http`.
  The section on nil requests and nil header maps lifts this: there the
  request is a nilable pointer, the header map may be nil, and the two
  `ServeHTTP` methods are embedded statement by statement with the run-time
  panics of Go.
-/

namespace Secsurf

/-! ## net/textproto: canonical MIME header keys -/

/-- Go `validHeaderFieldByte`: the bytes allowed in a header field name, that is
the token characters of RFC 7230 (letters, digits and fifteen punctuation
marks).  Code points 39 and 96 are the apostrophe and the backquote. -/
def validHeaderFieldByte (c : Char) : Bool :=
  ('0' ≤ c && c ≤ '9') || ('a' ≤ c && c ≤ 'z') || ('A' ≤ c && c ≤ 'Z') ||
  c == '!' || c == '#' || c == '$' || c == '%' || c == '&' || c.toNat == 39 ||
  c == '*' || c == '+' || c == '-' || c == '.' || c == '^' || c == '_' ||
  c.toNat == 96 || c == '|' || c == '~'

/-- Go constant `toLower = 'a' - 'A'`. -/
def toLower : Nat := 'a'.toNat - 'A'.toNat

/-- The first loop of Go `canonicalMIMEHeaderKey`: `none` when a byte is neither
a valid field byte nor a space (the key is returned unchanged with
`ok = false`), otherwise `some noCanon` where `noCanon` records whether a
space was seen. -/
def scanKey : Bool → List Char → Option Bool
  | noCanon, [] => some noCanon
  | noCanon, c :: cs =>
    if validHeaderFieldByte c then scanKey noCanon cs
    else if c == ' ' then scanKey true cs
    else none

/-- The second loop of Go `canonicalMIMEHeaderKey`: upper-case the first letter
and every letter following a dash, lower-case every other letter. -/
def canonLoop : Bool → List Char → List Char
  | _, [] => []
  | upper, c :: cs =>
    let c1 :=
      if upper && ('a' ≤ c && c ≤ 'z') then Char.ofNat (c.toNat - toLower)
      else if !upper && ('A' ≤ c && c ≤ 'Z') then Char.ofNat (c.toNat + toLower)
      else c
    c1 :: canonLoop (c1 == '-') cs

/-- Go `canonicalMIMEHeaderKey` (the slow path).  The final lookup in the
`commonHeader` table only interns the result: the table maps each common
header name to itself, so the returned string is the canonicalised one. -/
def canonicalMIMEHeaderKey (a : List Char) : List Char × Bool :=
  match scanKey false a with
  | none => (a, false)
  | some true => (a, true)
  | some false => (canonLoop true a, true)

/-- The loop of Go `CanonicalMIMEHeaderKey`, the quick check for a key that is
already canonical; `s` is the whole key and the list is what is left to
scan. -/
def quickCheck (s : List Char) : Bool → List Char → List Char
  | _, [] => s
  | upper, c :: cs =>
    if !validHeaderFieldByte c then s
    else if upper && ('a' ≤ c && c ≤ 'z') then (canonicalMIMEHeaderKey s).1
    else if !upper && ('A' ≤ c && c ≤ 'Z') then (canonicalMIMEHeaderKey s).1
    else quickCheck s (c == '-') cs

/-- Go `textproto.CanonicalMIMEHeaderKey`. -/
def CanonicalMIMEHeaderKey (s : String) : String :=
  String.mk (quickCheck s.data true s.data)

/-! ## net/http: headers, requests, response writers, handlers -/

/-- Go `http.Header`, a `map[string][]string`. -/
structure Header where
  /-- The value list stored under a key, `none` when the key is absent. -/
  entries : String → Option (List String)

/-- The empty header map. -/
def Header.empty : Header := ⟨fun _ => none⟩

/-- Go `Header.Set`: `h[CanonicalMIMEHeaderKey(key)] = []string{value}`. -/
def Header.Set (h : Header) (key value : String) : Header :=
  ⟨fun k => if k = CanonicalMIMEHeaderKey key then some [value] else h.entries k⟩

/-- Go `Header.Get`: the first value stored under the canonical form of `key`,
the empty string when there is none. -/
def Header.Get (h : Header) (key : String) : String :=
  match h.entries (CanonicalMIMEHeaderKey key) with
  | some (v :: _) => v
  | _ => ""

/-- Go `tls.ConnectionState`, as far as a handler can tell two of them apart
here. -/
structure ConnectionState where
  Version : Nat
  HandshakeComplete : Bool
  ServerName : String
  deriving DecidableEq

/-- Go `http.Request`: the fields a handler usually reads; `TLS` is the nilable
pointer `r.TLS`. -/
structure Request where
  Method : String
  URL : String
  Header : Header
  Body : String
  TLS : Option ConnectionState

/-- The state behind a Go `http.ResponseWriter`: the header map returned by
`Header()`, the status code passed to `WriteHeader` (if it was called) and the
bytes passed to `Write` so far. -/
structure ResponseWriter where
  header : Header
  status : Option Nat
  body : String

/-- What a call of `ServeHTTP` leaves behind: the response writer state, the
state of everything else, and the panic value if the call panicked. -/
structure Outcome (σ ε : Type) where
  w : ResponseWriter
  env : σ
  failure : Option ε

/-- Go `http.Handler`: anything with a `ServeHTTP(w, r)` method. -/
structure Handler (σ ε : Type) where
  ServeHTTP : ResponseWriter → Request → σ → Outcome σ ε

/-! ## secsurf -/

/-- Lines 45 to 51 of `wrap.ServeHTTP`: the header assignments made before the
wrapped handler is called. -/
def wrap.setHeaders (hdrs : Header) (r : Request) : Header :=
  let hdrs := hdrs.Set "X-XSS-Protection" "1; mode=block"
  let hdrs := hdrs.Set "X-Frame-Options" "deny"
  let hdrs := hdrs.Set "X-Content-Type-Options" "nosniff"
  if r.TLS.isSome then
    hdrs.Set "Strict-Transport-Security" "max-age=31536000; includeSubDomains"
  else hdrs

/-- Method `wrap.ServeHTTP`: set the headers on the map of `w`, then call the
embedded handler with the same `w` and `r`. -/
def wrap.ServeHTTP {σ ε : Type} (h : Handler σ ε) (w : ResponseWriter) (r : Request)
    (s : σ) : Outcome σ ε :=
  h.ServeHTTP { w with header := wrap.setHeaders w.header r } r s

/-- Function `New`: `return wrap{h}`. -/
def New {σ ε : Type} (h : Handler σ ε) : Handler σ ε := ⟨wrap.ServeHTTP h⟩

/-- Lines 65 to 69 of `swrap.ServeHTTP`: the header assignments made before the
wrapped handler is called. -/
def swrap.setHeaders (hdrs : Header) (_r : Request) : Header :=
  let hdrs := hdrs.Set "X-XSS-Protection" "1; mode=block"
  let hdrs := hdrs.Set "X-Frame-Options" "deny"
  let hdrs := hdrs.Set "X-Content-Type-Options" "nosniff"
  hdrs.Set "Strict-Transport-Security" "max-age=31536000; includeSubDomains"

/-- Method `swrap.ServeHTTP`. -/
def swrap.ServeHTTP {σ ε : Type} (h : Handler σ ε) (w : ResponseWriter) (r : Request)
    (s : σ) : Outcome σ ε :=
  h.ServeHTTP { w with header := swrap.setHeaders w.header r } r s

/-- Function `NewAlwaysSTS`: `return swrap{h}`. -/
def NewAlwaysSTS {σ ε : Type} (h : Handler σ ε) : Handler σ ε := ⟨swrap.ServeHTTP h⟩

/-! ## Statement vocabulary and concrete inputs -/

/-- The header map `h` maps the header name `k` to exactly `v`: the entry under
the canonical form of `k`, the one `Header.Get`, `Header.Set` and
`Header.Values` address, is the one-element list `[v]`, and `Header.Get`
returns `v`. -/
def Header.MapsTo (h : Header) (k v : String) : Prop :=
  h.entries (CanonicalMIMEHeaderKey k) = some [v] ∧ h.Get k = v

instance (h : Header) (k v : String) : Decidable (h.MapsTo k v) :=
  inferInstanceAs (Decidable (_ ∧ _))

/-- The header map `h` maps every name of the list to exactly the value paired
with it. -/
def Header.MapsAll (h : Header) (kvs : List (String × String)) : Prop :=
  ∀ kv ∈ kvs, h.MapsTo kv.1 kv.2

instance (h : Header) (kvs : List (String × String)) : Decidable (h.MapsAll kvs) :=
  inferInstanceAs (Decidable (∀ kv ∈ kvs, _))

/-- The response writer state that `wrap.ServeHTTP` passes on to the wrapped
handler. -/
def wrap.handed (w : ResponseWriter) (r : Request) : ResponseWriter :=
  { w with header := wrap.setHeaders w.header r }

/-- The response writer state that `swrap.ServeHTTP` passes on to the wrapped
handler. -/
def swrap.handed (w : ResponseWriter) (r : Request) : ResponseWriter :=
  { w with header := swrap.setHeaders w.header r }

/-- A request that arrived over TLS. -/
def secureRequest : Request :=
  ⟨"GET", "/", Header.empty, "", some ⟨772, true, "example.org"⟩⟩

/-- A request that arrived over plain HTTP. -/
def plainRequest : Request :=
  ⟨"POST", "/login", Header.empty, "user=a", none⟩

/-- A fresh response writer: no header, no status, no body. -/
def freshWriter : ResponseWriter := ⟨Header.empty, none, ""⟩

/-- A response writer whose header map already holds values under the names
the wrappers set, two of them under `Strict-Transport-Security`. -/
def usedWriter : ResponseWriter :=
  ⟨⟨fun k =>
      if k = "Strict-Transport-Security" then some ["max-age=0", "preload"]
      else if k = "X-Frame-Options" then some ["sameorigin"]
      else if k = "X-Xss-Protection" then some ["0"]
      else none⟩, none, ""⟩

/-- The handler of the spec scenarios: writes status 200 and the body `ok`. -/
def okHandler : Handler Unit String :=
  ⟨fun w _ s => ⟨{ w with status := some 200, body := w.body ++ "ok" }, s, none⟩⟩

/-- A handler that calls `w.Header().Set(k, v)` and then goes on as `g`. -/
def Handler.settingFirst {σ ε : Type} (k v : String) (g : Handler σ ε) : Handler σ ε :=
  ⟨fun w r s => g.ServeHTTP { w with header := w.header.Set k v } r s⟩

/-- Scenario 4 of the spec: a handler that sets `X-Frame-Options` to `sameorigin`
and then writes status 200 and the body `ok`. -/
def sameoriginHandler : Handler Unit String :=
  Handler.settingFirst "X-Frame-Options" "sameorigin" okHandler

/-- A second request over TLS, unlike `secureRequest` in every field. -/
def otherSecureRequest : Request :=
  ⟨"PUT", "/upload?x=1", Header.empty.Set "Accept" "text/html", "payload",
    some ⟨771, false, "other.example"⟩⟩

/-- A handler that writes status 500 and then panics with `boom`. -/
def panicHandler : Handler Unit String :=
  ⟨fun w _ s => ⟨{ w with status := some 500 }, s, some "boom"⟩⟩

/-- The handler that returns at once: it writes nothing and does not panic. -/
def Handler.idle {σ ε : Type} : Handler σ ε :=
  ⟨fun w _ s => ⟨w, s, none⟩⟩

/-- A handler instrumented with a call counter kept next to its outer state. -/
def Handler.counted {σ ε : Type} (h : Handler σ ε) : Handler (σ × Nat) ε :=
  ⟨fun w r s =>
    let o := h.ServeHTTP w r s.1
    ⟨o.w, (o.env, s.2 + 1), o.failure⟩⟩

/-! ## Nil requests and nil header maps

The two `ServeHTTP` methods once more, on the inputs the Go types allow: `r`
is a pointer that may be nil and `w.Header()` returns a map that may be nil.
Assigning to an entry of a nil map panics, and so does reading a field through
a nil pointer. -/

/-- The run-time panics that a statement of the two `ServeHTTP` methods can
raise by itself. -/
inductive RuntimePanic where
  /-- Go `assignment to entry in nil map`, raised by `Header.Set` on a nil map. -/
  | nilMapAssignment
  /-- Go `invalid memory address or nil pointer dereference`, raised by `r.TLS`
  on a nil `r`. -/
  | nilDereference
  deriving DecidableEq

/-- A Go panic value: a run-time error, or any other value `e` passed to
`panic`. -/
inductive Panic (ε : Type) where
  | runtime (p : RuntimePanic)
  | value (e : ε)
  deriving DecidableEq

namespace Raw

/-- The state behind a Go `http.ResponseWriter` whose `Header()` may return a
nil map (`none`). -/
structure ResponseWriter where
  header : Option Header
  status : Option Nat
  body : String

/-- What a call of `ServeHTTP` leaves behind; the panic value may be a run-time
error. -/
structure Outcome (σ ε : Type) where
  w : ResponseWriter
  env : σ
  failure : Option (Panic ε)

/-- Go `http.Handler`, called with a request pointer that may be nil (`none`). -/
structure Handler (σ ε : Type) where
  ServeHTTP : ResponseWriter → Option Request → σ → Outcome σ ε

/-- Method `wrap.ServeHTTP`, statement by statement.  Line 46 panics on a nil
map before anything is written; on a map, lines 46 to 48 assign three
entries; line 49 reads `r.TLS` and panics on a nil `r`; otherwise line 50 is
run when `r.TLS != nil` and line 52 calls the embedded handler. -/
def wrap.ServeHTTP {σ ε : Type} (h : Handler σ ε) (w : ResponseWriter)
    (r : Option Request) (s : σ) : Outcome σ ε :=
  match w.header with
  | none => ⟨w, s, some (Panic.runtime RuntimePanic.nilMapAssignment)⟩
  | some hdrs =>
    let hdrs := hdrs.Set "X-XSS-Protection" "1; mode=block"
    let hdrs := hdrs.Set "X-Frame-Options" "deny"
    let hdrs := hdrs.Set "X-Content-Type-Options" "nosniff"
    match r with
    | none =>
      ⟨{ w with header := some hdrs }, s, some (Panic.runtime RuntimePanic.nilDereference)⟩
    | some req =>
      let hdrs :=
        if req.TLS.isSome then
          hdrs.Set "Strict-Transport-Security" "max-age=31536000; includeSubDomains"
        else hdrs
      h.ServeHTTP { w with header := some hdrs } (some req) s

/-- Function `New`: `return wrap{h}`. -/
def New {σ ε : Type} (h : Handler σ ε) : Handler σ ε := ⟨wrap.ServeHTTP h⟩

/-- Method `swrap.ServeHTTP`, statement by statement.  Line 66 panics on a nil
map before anything is written; on a map, lines 66 to 69 assign four entries
and line 70 calls the embedded handler with `r` as it came, nil or not: the
method never reads through `r`. -/
def swrap.ServeHTTP {σ ε : Type} (h : Handler σ ε) (w : ResponseWriter)
    (r : Option Request) (s : σ) : Outcome σ ε :=
  match w.header with
  | none => ⟨w, s, some (Panic.runtime RuntimePanic.nilMapAssignment)⟩
  | some hdrs =>
    let hdrs := hdrs.Set "X-XSS-Protection" "1; mode=block"
    let hdrs := hdrs.Set "X-Frame-Options" "deny"
    let hdrs := hdrs.Set "X-Content-Type-Options" "nosniff"
    let hdrs := hdrs.Set "Strict-Transport-Security" "max-age=31536000; includeSubDomains"
    h.ServeHTTP { w with header := some hdrs } r s

/-- Function `NewAlwaysSTS`: `return swrap{h}`. -/
def NewAlwaysSTS {σ ε : Type} (h : Handler σ ε) : Handler σ ε := ⟨swrap.ServeHTTP h⟩

/-- The handler that returns at once: it writes nothing and does not panic, on
any writer and any request pointer. -/
def Handler.idle {σ ε : Type} : Handler σ ε :=
  ⟨fun w _ s => ⟨w, s, none⟩⟩

/-- A handler that writes status 500 and then panics with `boom`. -/
def panicHandler : Handler Unit String :=
  ⟨fun w _ s => ⟨{ w with status := some 500 }, s, some (Panic.value "boom")⟩⟩

/-- A handler instrumented with a call counter kept next to its outer state. -/
def Handler.counted {σ ε : Type} (h : Handler σ ε) : Handler (σ × Nat) ε :=
  ⟨fun w r s =>
    let o := h.ServeHTTP w r s.1
    ⟨o.w, (o.env, s.2 + 1), o.failure⟩⟩

/-- A response writer whose `Header()` returns a nil map. -/
def nilMapWriter : ResponseWriter := ⟨none, none, ""⟩

/-- A response writer with an empty, non-nil header map. -/
def freshWriter : ResponseWriter := ⟨some Header.empty, none, ""⟩

end Raw

/-! ## Shared lemmas -/

theorem canonical_xss :
    CanonicalMIMEHeaderKey "X-XSS-Protection" = "X-Xss-Protection" := by decide

theorem canonical_frame :
    CanonicalMIMEHeaderKey "X-Frame-Options" = "X-Frame-Options" := by decide

theorem canonical_cto :
    CanonicalMIMEHeaderKey "X-Content-Type-Options" = "X-Content-Type-Options" := by decide

theorem canonical_sts :
    CanonicalMIMEHeaderKey "Strict-Transport-Security" = "Strict-Transport-Security" := by
  decide

theorem Header.ext_entries {a b : Header} (h : ∀ k, a.entries k = b.entries k) : a = b := by
  cases a; cases b; congr; funext k; exact h k

theorem Header.set_entries (h : Header) (key value k : String) :
    (h.Set key value).entries k =
      if k = CanonicalMIMEHeaderKey key then some [value] else h.entries k := rfl

theorem Header.mapsTo_of_entries {h : Header} {k v : String}
    (e : h.entries (CanonicalMIMEHeaderKey k) = some [v]) : h.MapsTo k v := by
  refine ⟨e, ?_⟩
  unfold Header.Get
  rw [e]

/-- Closed form of the map produced by lines 45 to 51 of `wrap.ServeHTTP`. -/
theorem wrap_setHeaders_entries (H : Header) (r : Request) (k : String) :
    (wrap.setHeaders H r).entries k =
      if r.TLS ≠ none ∧ k = "Strict-Transport-Security" then
        some ["max-age=31536000; includeSubDomains"]
      else if k = "X-Content-Type-Options" then some ["nosniff"]
      else if k = "X-Frame-Options" then some ["deny"]
      else if k = "X-Xss-Protection" then some ["1; mode=block"]
      else H.entries k := by
  unfold wrap.setHeaders
  cases hT : r.TLS <;>
    simp [Header.set_entries, canonical_xss, canonical_frame, canonical_cto, canonical_sts]

/-- Closed form of the map produced by lines 65 to 69 of `swrap.ServeHTTP`. -/
theorem swrap_setHeaders_entries (H : Header) (r : Request) (k : String) :
    (swrap.setHeaders H r).entries k =
      if k = "Strict-Transport-Security" then some ["max-age=31536000; includeSubDomains"]
      else if k = "X-Content-Type-Options" then some ["nosniff"]
      else if k = "X-Frame-Options" then some ["deny"]
      else if k = "X-Xss-Protection" then some ["1; mode=block"]
      else H.entries k := by
  unfold swrap.setHeaders
  simp [Header.set_entries, canonical_xss, canonical_frame, canonical_cto, canonical_sts]

theorem wrap_handed_mapsAll_three (w : ResponseWriter) (r : Request) :
    (wrap.handed w r).header.MapsAll
      [("X-XSS-Protection", "1; mode=block"), ("X-Frame-Options", "deny"),
       ("X-Content-Type-Options", "nosniff")] := by
  intro kv hkv
  simp only [List.mem_cons, List.mem_singleton, List.not_mem_nil, or_false] at hkv
  rcases hkv with rfl | rfl | rfl <;>
    refine Header.mapsTo_of_entries ?_ <;>
    simp [wrap.handed, wrap_setHeaders_entries, canonical_xss, canonical_frame, canonical_cto]

theorem wrap_handed_mapsTo_sts (w : ResponseWriter) (r : Request) (hTLS : r.TLS ≠ none) :
    (wrap.handed w r).header.MapsTo "Strict-Transport-Security"
      "max-age=31536000; includeSubDomains" := by
  refine Header.mapsTo_of_entries ?_
  simp [wrap.handed, wrap_setHeaders_entries, canonical_sts, hTLS]

theorem swrap_handed_mapsAll (w : ResponseWriter) (r : Request) :
    (swrap.handed w r).header.MapsAll
      [("X-XSS-Protection", "1; mode=block"), ("X-Frame-Options", "deny"),
       ("X-Content-Type-Options", "nosniff"),
       ("Strict-Transport-Security", "max-age=31536000; includeSubDomains")] := by
  intro kv hkv
  simp only [List.mem_cons, List.mem_singleton, List.not_mem_nil, or_false] at hkv
  rcases hkv with rfl | rfl | rfl | rfl <;>
    refine Header.mapsTo_of_entries ?_ <;>
    simp [swrap.handed, swrap_setHeaders_entries, canonical_xss, canonical_frame,
      canonical_cto, canonical_sts]

/-- Entries that a handler leaves as they were keep what they map to. -/
theorem Header.mapsAll_of_kept {a b : Header} {kvs : List (String × String)}
    (keep : ∀ kv ∈ kvs,
      b.entries (CanonicalMIMEHeaderKey kv.1) = a.entries (CanonicalMIMEHeaderKey kv.1))
    (ha : a.MapsAll kvs) : b.MapsAll kvs := by
  intro kv hkv
  refine Header.mapsTo_of_entries ?_
  rw [keep kv hkv]
  exact (ha kv hkv).1

theorem wrap_setHeaders_eq_swrap (H : Header) (r : Request) (hTLS : r.TLS ≠ none) :
    wrap.setHeaders H r = swrap.setHeaders H r := by
  refine Header.ext_entries fun k => ?_
  rw [wrap_setHeaders_entries, swrap_setHeaders_entries]
  simp [hTLS]

theorem wrap_setHeaders_idem (H : Header) (r : Request) :
    wrap.setHeaders (wrap.setHeaders H r) r = wrap.setHeaders H r := by
  refine Header.ext_entries fun k => ?_
  rw [wrap_setHeaders_entries, wrap_setHeaders_entries]
  split_ifs <;> rfl

theorem swrap_setHeaders_idem (H : Header) (r : Request) :
    swrap.setHeaders (swrap.setHeaders H r) r = swrap.setHeaders H r := by
  refine Header.ext_entries fun k => ?_
  rw [swrap_setHeaders_entries, swrap_setHeaders_entries]
  split_ifs <;> rfl

/-- The assignments of `swrap` after those of `wrap` give what `swrap` alone
gives. -/
theorem swrap_after_wrap (H : Header) (r : Request) :
    swrap.setHeaders (wrap.setHeaders H r) r = swrap.setHeaders H r := by
  refine Header.ext_entries fun k => ?_
  rw [swrap_setHeaders_entries, swrap_setHeaders_entries, wrap_setHeaders_entries]
  split_ifs <;> first | rfl | simp_all

/-- The assignments of `wrap` after those of `swrap` give what `swrap` alone
gives. -/
theorem wrap_after_swrap (H : Header) (r : Request) :
    wrap.setHeaders (swrap.setHeaders H r) r = swrap.setHeaders H r := by
  refine Header.ext_entries fun k => ?_
  rw [wrap_setHeaders_entries, swrap_setHeaders_entries]
  split_ifs <;> first | rfl | simp_all

/-! ## The claims -/

/-- C1. Standard wrapper, request over TLS.  For every wrapped handler, every
initial response writer state and every request with `r.TLS != nil`,
`New(h).ServeHTTP` calls `h` on a response writer whose header map maps
`X-XSS-Protection` to exactly `1; mode=block`, `X-Frame-Options` to exactly
`deny`, `X-Content-Type-Options` to exactly `nosniff` and
`Strict-Transport-Security` to exactly `max-age=31536000; includeSubDomains`;
and when `h` leaves the entries of these four names as it received them, the
final response header map maps the four names to the same values. -/
theorem C1_standard_secure {σ ε : Type} (h : Handler σ ε) (w : ResponseWriter)
    (r : Request) (s : σ) (hTLS : r.TLS ≠ none) :
    (New h).ServeHTTP w r s = h.ServeHTTP (wrap.handed w r) r s ∧
    (wrap.handed w r).header.MapsAll
      [("X-XSS-Protection", "1; mode=block"), ("X-Frame-Options", "deny"),
       ("X-Content-Type-Options", "nosniff"),
       ("Strict-Transport-Security", "max-age=31536000; includeSubDomains")] ∧
    ((∀ kv ∈ [("X-XSS-Protection", "1; mode=block"), ("X-Frame-Options", "deny"),
          ("X-Content-Type-Options", "nosniff"),
          ("Strict-Transport-Security", "max-age=31536000; includeSubDomains")],
        (h.ServeHTTP (wrap.handed w r) r s).w.header.entries (CanonicalMIMEHeaderKey kv.1) =
          (wrap.handed w r).header.entries (CanonicalMIMEHeaderKey kv.1)) →
      ((New h).ServeHTTP w r s).w.header.MapsAll
        [("X-XSS-Protection", "1; mode=block"), ("X-Frame-Options", "deny"),
         ("X-Content-Type-Options", "nosniff"),
         ("Strict-Transport-Security", "max-age=31536000; includeSubDomains")]) := by
  have hand : (wrap.handed w r).header.MapsAll
      [("X-XSS-Protection", "1; mode=block"), ("X-Frame-Options", "deny"),
       ("X-Content-Type-Options", "nosniff"),
       ("Strict-Transport-Security", "max-age=31536000; includeSubDomains")] := by
    intro kv hkv
    simp only [List.mem_cons, List.mem_singleton, List.not_mem_nil, or_false] at hkv
    rcases hkv with rfl | rfl | rfl | rfl
    · exact wrap_handed_mapsAll_three w r _ (by simp)
    · exact wrap_handed_mapsAll_three w r _ (by simp)
    · exact wrap_handed_mapsAll_three w r _ (by simp)
    · exact wrap_handed_mapsTo_sts w r hTLS
  exact ⟨rfl, hand, fun keep => Header.mapsAll_of_kept keep hand⟩

/-- Scenario 1 of the spec: the handler that writes status 200 and body `ok`,
wrapped by `New`, on a request over TLS and a header map that already holds
other values under three of the names. -/
theorem C1_standard_secure_witness :
    secureRequest.TLS ≠ none ∧
    ((New okHandler).ServeHTTP usedWriter secureRequest ()).w.header.MapsAll
      [("X-XSS-Protection", "1; mode=block"), ("X-Frame-Options", "deny"),
       ("X-Content-Type-Options", "nosniff"),
       ("Strict-Transport-Security", "max-age=31536000; includeSubDomains")] ∧
    ((New okHandler).ServeHTTP usedWriter secureRequest ()).w.status = some 200 ∧
    ((New okHandler).ServeHTTP usedWriter secureRequest ()).w.body = "ok" :=
  ⟨by simp [secureRequest],
   (C1_standard_secure okHandler usedWriter secureRequest () (by simp [secureRequest])).2.2
     (fun _ _ => rfl),
   rfl, by decide⟩

/-- C2, as stated, fails.  The request is plain HTTP and the wrapped handler
writes no header, yet after `New(okHandler).ServeHTTP` the header map still
holds a `Strict-Transport-Security` entry: the one the response writer held
before the call, which the wrapper never deletes. -/
theorem C2_standard_insecure_counterexample :
    plainRequest.TLS = none ∧
    (okHandler.ServeHTTP (wrap.handed usedWriter plainRequest) plainRequest ()).w.header =
      (wrap.handed usedWriter plainRequest).header ∧
    ((New okHandler).ServeHTTP usedWriter plainRequest ()).w.header.entries
      "Strict-Transport-Security" = some ["max-age=0", "preload"] ∧
    ((New okHandler).ServeHTTP usedWriter plainRequest ()).w.header.Get
      "Strict-Transport-Security" = "max-age=0" :=
  ⟨rfl, rfl, by decide, by decide⟩

/-- C2, amended.  Standard wrapper, plain request.  For every wrapped handler
that writes no header, every initial response writer state and every request
with `r.TLS == nil`, after `New(h).ServeHTTP` the header map maps
`X-XSS-Protection` to `1; mode=block`, `X-Frame-Options` to `deny` and
`X-Content-Type-Options` to `nosniff`, and its `Strict-Transport-Security`
entry is exactly the one of the initial header map: absent (so that
`Header.Get` returns the empty string) when it was absent initially. -/
theorem C2_standard_insecure {σ ε : Type} (h : Handler σ ε) (w : ResponseWriter)
    (r : Request) (s : σ) (hTLS : r.TLS = none)
    (hkeep : (h.ServeHTTP (wrap.handed w r) r s).w.header = (wrap.handed w r).header) :
    ((New h).ServeHTTP w r s).w.header.MapsAll
      [("X-XSS-Protection", "1; mode=block"), ("X-Frame-Options", "deny"),
       ("X-Content-Type-Options", "nosniff")] ∧
    ((New h).ServeHTTP w r s).w.header.entries "Strict-Transport-Security" =
      w.header.entries "Strict-Transport-Security" ∧
    (w.header.entries "Strict-Transport-Security" = none →
      ((New h).ServeHTTP w r s).w.header.entries "Strict-Transport-Security" = none ∧
      ((New h).ServeHTTP w r s).w.header.Get "Strict-Transport-Security" = "") := by
  have hfin : ((New h).ServeHTTP w r s).w.header = (wrap.handed w r).header := hkeep
  have hsts : (wrap.handed w r).header.entries "Strict-Transport-Security" =
      w.header.entries "Strict-Transport-Security" := by
    simp [wrap.handed, wrap_setHeaders_entries, hTLS]
  rw [hfin]
  refine ⟨wrap_handed_mapsAll_three w r, hsts, fun habs => ⟨hsts.trans habs, ?_⟩⟩
  unfold Header.Get
  rw [canonical_sts, hsts, habs]

/-- Scenario 2 of the spec: the handler that writes status 200 and body `ok`,
wrapped by `New`, on a plain request and a fresh response writer. -/
theorem C2_standard_insecure_witness :
    plainRequest.TLS = none ∧
    ((New okHandler).ServeHTTP freshWriter plainRequest ()).w.header.MapsAll
      [("X-XSS-Protection", "1; mode=block"), ("X-Frame-Options", "deny"),
       ("X-Content-Type-Options", "nosniff")] ∧
    ((New okHandler).ServeHTTP freshWriter plainRequest ()).w.header.entries
      "Strict-Transport-Security" = none ∧
    ((New okHandler).ServeHTTP freshWriter plainRequest ()).w.header.Get
      "Strict-Transport-Security" = "" :=
  ⟨rfl,
   (C2_standard_insecure okHandler freshWriter plainRequest () rfl rfl).1,
   (C2_standard_insecure okHandler freshWriter plainRequest () rfl rfl).2.2 rfl⟩

/-- C3. Always-secure wrapper.  For every wrapped handler, every initial
response writer state and every request, whether `r.TLS` is nil or not,
`NewAlwaysSTS(h).ServeHTTP` calls `h` on a response writer whose header map
maps `X-XSS-Protection` to `1; mode=block`, `X-Frame-Options` to `deny`,
`X-Content-Type-Options` to `nosniff` and `Strict-Transport-Security` to
`max-age=31536000; includeSubDomains`. -/
theorem C3_always_sts {σ ε : Type} (h : Handler σ ε) (w : ResponseWriter)
    (r : Request) (s : σ) :
    (NewAlwaysSTS h).ServeHTTP w r s = h.ServeHTTP (swrap.handed w r) r s ∧
    (swrap.handed w r).header.MapsAll
      [("X-XSS-Protection", "1; mode=block"), ("X-Frame-Options", "deny"),
       ("X-Content-Type-Options", "nosniff"),
       ("Strict-Transport-Security", "max-age=31536000; includeSubDomains")] :=
  ⟨rfl, swrap_handed_mapsAll w r⟩

/-- C4. Delegation.  For every wrapped handler `h`, response writer `w` and
request `r`, the outcome of `New(h).ServeHTTP(w, r)` and of
`NewAlwaysSTS(h).ServeHTTP(w, r)` is the outcome of `h` on the same request
and on `w` with the headers of the wrapper set: status, body, outer effects
and panic are those of `h` there.  The writer handed over differs from `w`
in its header map only.  The wrapped handler runs exactly once: a call
counter attached to `h` goes up by one. -/
theorem C4_delegation {σ ε : Type} (h : Handler σ ε) (w : ResponseWriter)
    (r : Request) (s : σ) :
    (New h).ServeHTTP w r s = h.ServeHTTP (wrap.handed w r) r s ∧
    (NewAlwaysSTS h).ServeHTTP w r s = h.ServeHTTP (swrap.handed w r) r s ∧
    (wrap.handed w r).header = wrap.setHeaders w.header r ∧
    (wrap.handed w r).status = w.status ∧ (wrap.handed w r).body = w.body ∧
    (swrap.handed w r).header = swrap.setHeaders w.header r ∧
    (swrap.handed w r).status = w.status ∧ (swrap.handed w r).body = w.body ∧
    (∀ n : Nat, ((New h.counted).ServeHTTP w r (s, n)).env.2 = n + 1) ∧
    (∀ n : Nat, ((NewAlwaysSTS h.counted).ServeHTTP w r (s, n)).env.2 = n + 1) :=
  ⟨rfl, rfl, rfl, rfl, rfl, rfl, rfl, rfl, fun _ => rfl, fun _ => rfl⟩

/-- C5, as stated, fails.  The Go types let `w.Header()` return a nil map and
`r` be nil, and on those inputs the wrappers panic in their own statements,
around a handler that never panics and without calling it (its call counter
stays at 0).  On a nil map both wrappers panic at their first `Set` with
nothing written; on a map and a nil `r`, `New` panics at `r.TLS` after three
assignments, while `NewAlwaysSTS` calls the handler. -/
theorem C5_failure_propagation_counterexample :
    (Raw.New (Raw.Handler.idle : Raw.Handler Unit String).counted).ServeHTTP
        Raw.nilMapWriter (some plainRequest) ((), 0) =
      ⟨Raw.nilMapWriter, ((), 0), some (Panic.runtime RuntimePanic.nilMapAssignment)⟩ ∧
    (Raw.NewAlwaysSTS (Raw.Handler.idle : Raw.Handler Unit String).counted).ServeHTTP
        Raw.nilMapWriter (some plainRequest) ((), 0) =
      ⟨Raw.nilMapWriter, ((), 0), some (Panic.runtime RuntimePanic.nilMapAssignment)⟩ ∧
    ((Raw.New (Raw.Handler.idle : Raw.Handler Unit String).counted).ServeHTTP
        Raw.freshWriter none ((), 0)).failure =
      some (Panic.runtime RuntimePanic.nilDereference) ∧
    ((Raw.New (Raw.Handler.idle : Raw.Handler Unit String).counted).ServeHTTP
        Raw.freshWriter none ((), 0)).env.2 = 0 ∧
    (((Raw.New (Raw.Handler.idle : Raw.Handler Unit String).counted).ServeHTTP
        Raw.freshWriter none ((), 0)).w.header.map
          fun m => (m.Get "X-Content-Type-Options", m.Get "Strict-Transport-Security")) =
      some ("nosniff", "") ∧
    ((Raw.NewAlwaysSTS (Raw.Handler.idle : Raw.Handler Unit String).counted).ServeHTTP
        Raw.freshWriter none ((), 0)).failure = none ∧
    ((Raw.NewAlwaysSTS (Raw.Handler.idle : Raw.Handler Unit String).counted).ServeHTTP
        Raw.freshWriter none ((), 0)).env.2 = 1 :=
  ⟨rfl, rfl, rfl, rfl, by decide, rfl, rfl⟩

/-- C5, amended.  Failure propagation.  For every wrapped handler `h`, every
response writer `w` whose `Header()` returns a non-nil map `H` and every
non-nil request `r`, the call `New(h).ServeHTTP(w, r)` is the call of `h` on
the pre-populated writer and `r`: it panics if and only if `h` panics there,
and then with the same value.  The same holds of `NewAlwaysSTS(h)` for every
such `w` and every request pointer `p`, nil or not.  On these inputs the
header assignments themselves do not fail: around a handler that returns at
once, neither wrapper panics. -/
theorem C5_failure_propagation {σ ε : Type} (h : Raw.Handler σ ε) (w : Raw.ResponseWriter)
    (H : Header) (r : Request) (p : Option Request) (s : σ) (hw : w.header = some H) :
    (Raw.New h).ServeHTTP w (some r) s =
      h.ServeHTTP { w with header := some (wrap.setHeaders H r) } (some r) s ∧
    (Raw.NewAlwaysSTS h).ServeHTTP w p s =
      h.ServeHTTP { w with header := some (swrap.setHeaders H r) } p s ∧
    (∀ e : Panic ε, ((Raw.New h).ServeHTTP w (some r) s).failure = some e ↔
      (h.ServeHTTP { w with header := some (wrap.setHeaders H r) } (some r) s).failure =
        some e) ∧
    (∀ e : Panic ε, ((Raw.NewAlwaysSTS h).ServeHTTP w p s).failure = some e ↔
      (h.ServeHTTP { w with header := some (swrap.setHeaders H r) } p s).failure =
        some e) ∧
    ((Raw.New (Raw.Handler.idle : Raw.Handler σ ε)).ServeHTTP w (some r) s).failure = none ∧
    ((Raw.NewAlwaysSTS (Raw.Handler.idle : Raw.Handler σ ε)).ServeHTTP w p s).failure =
      none := by
  have e1 : ∀ g : Raw.Handler σ ε, (Raw.New g).ServeHTTP w (some r) s =
      g.ServeHTTP { w with header := some (wrap.setHeaders H r) } (some r) s := by
    intro g
    show Raw.wrap.ServeHTTP g w (some r) s = _
    unfold Raw.wrap.ServeHTTP
    rw [hw]
    rfl
  have e2 : ∀ g : Raw.Handler σ ε, (Raw.NewAlwaysSTS g).ServeHTTP w p s =
      g.ServeHTTP { w with header := some (swrap.setHeaders H r) } p s := by
    intro g
    show Raw.swrap.ServeHTTP g w p s = _
    unfold Raw.swrap.ServeHTTP
    rw [hw]
    rfl
  refine ⟨e1 h, e2 h, fun e => ?_, fun e => ?_, ?_, ?_⟩
  · rw [e1 h]
  · rw [e2 h]
  · rw [e1 Raw.Handler.idle]
    rfl
  · rw [e2 Raw.Handler.idle]
    rfl

/-- On a writer with a non-nil map and a non-nil request, the wrappers around the
handler that writes status 500 and panics with `boom` panic with `boom`. -/
theorem C5_failure_propagation_witness :
    Raw.freshWriter.header = some Header.empty ∧
    ((Raw.New Raw.panicHandler).ServeHTTP Raw.freshWriter (some plainRequest) ()).failure =
      some (Panic.value "boom") ∧
    ((Raw.NewAlwaysSTS Raw.panicHandler).ServeHTTP Raw.freshWriter none ()).failure =
      some (Panic.value "boom") :=
  ⟨rfl,
   ((C5_failure_propagation Raw.panicHandler Raw.freshWriter Header.empty plainRequest none
      () rfl).2.2.1 (Panic.value "boom")).mpr rfl,
   ((C5_failure_propagation Raw.panicHandler Raw.freshWriter Header.empty plainRequest none
      () rfl).2.2.2.1 (Panic.value "boom")).mpr rfl⟩

/-- C6. The later write of the wrapped handler wins.  For each of the four
header names `k` set by the wrappers, with `d` the value the wrapper gives
it, and every value `v`: if the wrapped handler sets `k` to `v` on the writer
it receives (where `NewAlwaysSTS` has put `d`) and does not write `k` again,
the final response header map maps `k` to exactly `v`, under `New` and under
`NewAlwaysSTS`, and so it does not map `k` to `d` unless `v` is `d`. -/
theorem C6_inner_write_wins {σ ε : Type} (g : Handler σ ε) (k d v : String)
    (w : ResponseWriter) (r : Request) (s : σ)
    (hk : (k, d) ∈ [("X-XSS-Protection", "1; mode=block"), ("X-Frame-Options", "deny"),
      ("X-Content-Type-Options", "nosniff"),
      ("Strict-Transport-Security", "max-age=31536000; includeSubDomains")])
    (hg : ∀ w1 : ResponseWriter,
      (g.ServeHTTP w1 r s).w.header.entries (CanonicalMIMEHeaderKey k) =
        w1.header.entries (CanonicalMIMEHeaderKey k)) :
    (swrap.handed w r).header.MapsTo k d ∧
    ((New (Handler.settingFirst k v g)).ServeHTTP w r s).w.header.MapsTo k v ∧
    ((NewAlwaysSTS (Handler.settingFirst k v g)).ServeHTTP w r s).w.header.MapsTo k v ∧
    (v ≠ d →
      ¬ ((New (Handler.settingFirst k v g)).ServeHTTP w r s).w.header.MapsTo k d ∧
      ¬ ((NewAlwaysSTS (Handler.settingFirst k v g)).ServeHTTP w r s).w.header.MapsTo k d) := by
  have e1 : ((New (Handler.settingFirst k v g)).ServeHTTP w r s).w.header.entries
      (CanonicalMIMEHeaderKey k) = some [v] := by
    show (g.ServeHTTP _ r s).w.header.entries (CanonicalMIMEHeaderKey k) = some [v]
    rw [hg]
    simp [Header.set_entries]
  have e2 : ((NewAlwaysSTS (Handler.settingFirst k v g)).ServeHTTP w r s).w.header.entries
      (CanonicalMIMEHeaderKey k) = some [v] := by
    show (g.ServeHTTP _ r s).w.header.entries (CanonicalMIMEHeaderKey k) = some [v]
    rw [hg]
    simp [Header.set_entries]
  refine ⟨swrap_handed_mapsAll w r (k, d) hk, Header.mapsTo_of_entries e1,
    Header.mapsTo_of_entries e2, fun hne => ⟨?_, ?_⟩⟩
  · intro hd
    have := hd.1
    rw [e1] at this
    simp only [Option.some.injEq, List.cons.injEq, and_true] at this
    exact hne this
  · intro hd
    have := hd.1
    rw [e2] at this
    simp only [Option.some.injEq, List.cons.injEq, and_true] at this
    exact hne this

/-- Scenario 4 of the spec: the wrapped handler sets `X-Frame-Options` to
`sameorigin`; the final header map has `sameorigin`, not `deny`. -/
theorem C6_inner_write_wins_witness :
    ((New sameoriginHandler).ServeHTTP freshWriter plainRequest ()).w.header.MapsTo
      "X-Frame-Options" "sameorigin" ∧
    ¬ ((New sameoriginHandler).ServeHTTP freshWriter plainRequest ()).w.header.MapsTo
      "X-Frame-Options" "deny" :=
  ⟨(C6_inner_write_wins okHandler "X-Frame-Options" "deny" "sameorigin" freshWriter
      plainRequest () (by simp) (fun _ => rfl)).2.1,
   ((C6_inner_write_wins okHandler "X-Frame-Options" "deny" "sameorigin" freshWriter
      plainRequest () (by simp) (fun _ => rfl)).2.2.2 (by decide)).1⟩

/-- C7. Overwrite, not duplicate.  For either wrapper, every request and every
initial header map, whatever it already holds under the four names, making
the header assignments twice in a row gives exactly the header map that
making them once gives, and in that map each name the wrapper assigns (the
first three always, `Strict-Transport-Security` under `NewAlwaysSTS` and under
`New` when `r.TLS != nil`) carries exactly one value. -/
theorem C7_overwrite_not_duplicate (H : Header) (r : Request) :
    wrap.setHeaders (wrap.setHeaders H r) r = wrap.setHeaders H r ∧
    swrap.setHeaders (swrap.setHeaders H r) r = swrap.setHeaders H r ∧
    (wrap.setHeaders H r).MapsAll
      [("X-XSS-Protection", "1; mode=block"), ("X-Frame-Options", "deny"),
       ("X-Content-Type-Options", "nosniff")] ∧
    (r.TLS ≠ none →
      (wrap.setHeaders H r).MapsTo "Strict-Transport-Security"
        "max-age=31536000; includeSubDomains") ∧
    (swrap.setHeaders H r).MapsAll
      [("X-XSS-Protection", "1; mode=block"), ("X-Frame-Options", "deny"),
       ("X-Content-Type-Options", "nosniff"),
       ("Strict-Transport-Security", "max-age=31536000; includeSubDomains")] := by
  refine ⟨Header.ext_entries fun k => ?_, Header.ext_entries fun k => ?_,
    wrap_handed_mapsAll_three ⟨H, none, ""⟩ r,
    wrap_handed_mapsTo_sts ⟨H, none, ""⟩ r,
    swrap_handed_mapsAll ⟨H, none, ""⟩ r⟩
  · rw [wrap_setHeaders_entries, wrap_setHeaders_entries]
    split_ifs <;> rfl
  · rw [swrap_setHeaders_entries, swrap_setHeaders_entries]
    split_ifs <;> rfl

/-- The header map of `usedWriter` holds two values under
`Strict-Transport-Security`; after the assignments of `New` on a request over
TLS it holds exactly one. -/
theorem C7_overwrite_not_duplicate_witness :
    usedWriter.header.entries "Strict-Transport-Security" = some ["max-age=0", "preload"] ∧
    secureRequest.TLS ≠ none ∧
    (wrap.setHeaders usedWriter.header secureRequest).MapsTo "Strict-Transport-Security"
      "max-age=31536000; includeSubDomains" :=
  ⟨by decide, by simp [secureRequest],
   (C7_overwrite_not_duplicate usedWriter.header secureRequest).2.2.2.1
     (by simp [secureRequest])⟩

/-- C8, as stated, fails.  After the assignments of either wrapper on an empty
header map there is no entry under the key `X-XSS-Protection`: `Header.Set`
stores the value under the canonical form of the name, which is
`X-Xss-Protection`. -/
theorem C8_exact_casing_counterexample :
    CanonicalMIMEHeaderKey "X-XSS-Protection" = "X-Xss-Protection" ∧
    (wrap.setHeaders Header.empty secureRequest).entries "X-XSS-Protection" = none ∧
    (wrap.setHeaders Header.empty secureRequest).entries "X-Xss-Protection" =
      some ["1; mode=block"] ∧
    (swrap.setHeaders Header.empty plainRequest).entries "X-XSS-Protection" = none ∧
    (swrap.setHeaders Header.empty plainRequest).entries "X-Xss-Protection" =
      some ["1; mode=block"] :=
  ⟨by decide, by decide, by decide, by decide, by decide⟩

/-- C8, amended.  For every request served through `New` or `NewAlwaysSTS`, the
entries the wrapper creates in the header map have keys that are character
for character `X-Xss-Protection`, `X-Frame-Options`, `X-Content-Type-Options`
and `Strict-Transport-Security` (the last one under `NewAlwaysSTS`, and under
`New` when `r.TLS != nil`), and values that are character for character
`1; mode=block`, `deny`, `nosniff` and `max-age=31536000; includeSubDomains`:
from an empty map these are exactly the keys present afterwards, and from any
map these keys hold exactly these values afterwards. -/
theorem C8_exact_casing (H : Header) (r : Request) (k : String) :
    ((wrap.setHeaders Header.empty r).entries k ≠ none ↔
      k ∈ ["X-Xss-Protection", "X-Frame-Options", "X-Content-Type-Options"] ∨
        (r.TLS ≠ none ∧ k = "Strict-Transport-Security")) ∧
    ((swrap.setHeaders Header.empty r).entries k ≠ none ↔
      k ∈ ["X-Xss-Protection", "X-Frame-Options", "X-Content-Type-Options",
        "Strict-Transport-Security"]) ∧
    (wrap.setHeaders H r).entries "X-Xss-Protection" = some ["1; mode=block"] ∧
    (wrap.setHeaders H r).entries "X-Frame-Options" = some ["deny"] ∧
    (wrap.setHeaders H r).entries "X-Content-Type-Options" = some ["nosniff"] ∧
    (r.TLS ≠ none → (wrap.setHeaders H r).entries "Strict-Transport-Security" =
      some ["max-age=31536000; includeSubDomains"]) ∧
    (swrap.setHeaders H r).entries "X-Xss-Protection" = some ["1; mode=block"] ∧
    (swrap.setHeaders H r).entries "X-Frame-Options" = some ["deny"] ∧
    (swrap.setHeaders H r).entries "X-Content-Type-Options" = some ["nosniff"] ∧
    (swrap.setHeaders H r).entries "Strict-Transport-Security" =
      some ["max-age=31536000; includeSubDomains"] := by
  refine ⟨?_, ?_, ?_, ?_, ?_, ?_, ?_, ?_, ?_, ?_⟩
  · rw [wrap_setHeaders_entries]
    by_cases hT : r.TLS = none <;> simp [hT, Header.empty] <;> split_ifs <;> simp_all
  · rw [swrap_setHeaders_entries]
    simp [Header.empty]
    split_ifs <;> simp_all
  all_goals first
    | (intro hT; simp [wrap_setHeaders_entries, hT])
    | simp [wrap_setHeaders_entries, swrap_setHeaders_entries]

/-- On a request over TLS and the header map of `usedWriter`, the assignments of
`New` leave exactly `max-age=31536000; includeSubDomains` under the key
`Strict-Transport-Security`. -/
theorem C8_exact_casing_witness :
    secureRequest.TLS ≠ none ∧
    (wrap.setHeaders usedWriter.header secureRequest).entries "Strict-Transport-Security" =
      some ["max-age=31536000; includeSubDomains"] :=
  ⟨by simp [secureRequest],
   (C8_exact_casing usedWriter.header secureRequest "X-Xss-Protection").2.2.2.2.2.1
     (by simp [secureRequest])⟩

/-- C9. The headers set depend on the request through one fact only.  For every
initial header map and any two requests that agree on whether `TLS` is nil,
the header assignments of `New` give the same header map; the header
assignments of `NewAlwaysSTS` give the same header map for any two requests
whatsoever. -/
theorem C9_only_tls_fact (H : Header) (r1 r2 : Request)
    (hagree : r1.TLS = none ↔ r2.TLS = none) :
    wrap.setHeaders H r1 = wrap.setHeaders H r2 ∧
    (∀ r3 r4 : Request, swrap.setHeaders H r3 = swrap.setHeaders H r4) := by
  refine ⟨Header.ext_entries fun k => ?_, fun _ _ => rfl⟩
  rw [wrap_setHeaders_entries, wrap_setHeaders_entries]
  by_cases h1 : r1.TLS = none
  · simp [h1, hagree.mp h1]
  · have h2 : ¬ r2.TLS = none := fun h2 => h1 (hagree.mpr h2)
    simp [h1, h2]

/-- Two requests over TLS that differ in method, URL, headers, body and
connection state get the same headers from `New`. -/
theorem C9_only_tls_fact_witness :
    (secureRequest.TLS = none ↔ otherSecureRequest.TLS = none) ∧
    secureRequest.Method ≠ otherSecureRequest.Method ∧
    secureRequest.TLS ≠ otherSecureRequest.TLS ∧
    wrap.setHeaders usedWriter.header secureRequest =
      wrap.setHeaders usedWriter.header otherSecureRequest :=
  ⟨by simp [secureRequest, otherSecureRequest], by decide, by decide,
   (C9_only_tls_fact usedWriter.header secureRequest otherSecureRequest
     (by simp [secureRequest, otherSecureRequest])).1⟩

/-- C10. The two variants differ in the fourth header only.  For every wrapped
handler, response writer and request with `r.TLS != nil`, `New(h).ServeHTTP`
and `NewAlwaysSTS(h).ServeHTTP` have the same outcome; for every request with
`r.TLS == nil`, the header maps the two wrappers hand to `h` hold the same
entry under every key other than `Strict-Transport-Security`, and
`Header.Get` returns the same value from both for every name whose canonical
form is not `Strict-Transport-Security`. -/
theorem C10_variants_differ_only_in_sts {σ ε : Type} (h : Handler σ ε)
    (w : ResponseWriter) (r : Request) (s : σ) :
    (r.TLS ≠ none → (New h).ServeHTTP w r s = (NewAlwaysSTS h).ServeHTTP w r s) ∧
    (r.TLS = none → ∀ k : String, k ≠ "Strict-Transport-Security" →
      (wrap.handed w r).header.entries k = (swrap.handed w r).header.entries k) ∧
    (r.TLS = none → ∀ name : String,
      CanonicalMIMEHeaderKey name ≠ "Strict-Transport-Security" →
      (wrap.handed w r).header.Get name = (swrap.handed w r).header.Get name) := by
  have key : ∀ k : String, k ≠ "Strict-Transport-Security" →
      (wrap.handed w r).header.entries k = (swrap.handed w r).header.entries k := by
    intro k hk
    show (wrap.setHeaders w.header r).entries k = (swrap.setHeaders w.header r).entries k
    rw [wrap_setHeaders_entries, swrap_setHeaders_entries]
    simp [hk]
  refine ⟨fun hT => ?_, fun _ => key, fun _ name hn => ?_⟩
  · show h.ServeHTTP { w with header := wrap.setHeaders w.header r } r s =
      h.ServeHTTP { w with header := swrap.setHeaders w.header r } r s
    rw [wrap_setHeaders_eq_swrap w.header r hT]
  · unfold Header.Get
    rw [key _ hn]

/-- On a request over TLS the two wrappers around the panicking handler have the
same outcome; on a plain request the maps they hand on agree under
`X-Frame-Options`. -/
theorem C10_variants_differ_only_in_sts_witness :
    secureRequest.TLS ≠ none ∧
    (New panicHandler).ServeHTTP usedWriter secureRequest () =
      (NewAlwaysSTS panicHandler).ServeHTTP usedWriter secureRequest () ∧
    plainRequest.TLS = none ∧
    (wrap.handed usedWriter plainRequest).header.entries "X-Frame-Options" =
      (swrap.handed usedWriter plainRequest).header.entries "X-Frame-Options" ∧
    (wrap.handed usedWriter plainRequest).header.Get "x-xss-protection" =
      (swrap.handed usedWriter plainRequest).header.Get "x-xss-protection" :=
  ⟨by simp [secureRequest],
   (C10_variants_differ_only_in_sts panicHandler usedWriter secureRequest ()).1
     (by simp [secureRequest]),
   rfl,
   (C10_variants_differ_only_in_sts panicHandler usedWriter plainRequest ()).2.1 rfl
     "X-Frame-Options" (by decide),
   (C10_variants_differ_only_in_sts panicHandler usedWriter plainRequest ()).2.2 rfl
     "x-xss-protection" (by decide)⟩

/-- C11. Frame.  For every initial response writer state and every request, the
step a wrapper makes before it calls the wrapped handler changes nothing but
the header entries it assigns.  Seen around a handler that returns at once,
the outcome is the writer with its header map updated, the outer state as it
was and no panic; status and body are not written.  Every key other than the
canonical forms of the four names keeps its entry, and `Header.Get` returns
what it returned before for every name whose canonical form is not that of
one of the four.  Under `New` with `r.TLS == nil` the
`Strict-Transport-Security` entry is left as it was, so that the map handed
to the wrapped handler has a `Strict-Transport-Security` entry if and only if
`r.TLS != nil` or the initial header map had one. -/
theorem C11_frame {σ ε : Type} (w : ResponseWriter) (r : Request) (s : σ) :
    (New (Handler.idle : Handler σ ε)).ServeHTTP w r s = ⟨wrap.handed w r, s, none⟩ ∧
    (NewAlwaysSTS (Handler.idle : Handler σ ε)).ServeHTTP w r s =
      ⟨swrap.handed w r, s, none⟩ ∧
    (wrap.handed w r).status = w.status ∧ (wrap.handed w r).body = w.body ∧
    (swrap.handed w r).status = w.status ∧ (swrap.handed w r).body = w.body ∧
    (∀ k : String,
      k ∉ List.map CanonicalMIMEHeaderKey ["X-XSS-Protection", "X-Frame-Options",
        "X-Content-Type-Options", "Strict-Transport-Security"] →
      (wrap.handed w r).header.entries k = w.header.entries k ∧
      (swrap.handed w r).header.entries k = w.header.entries k) ∧
    (∀ name : String,
      CanonicalMIMEHeaderKey name ∉ List.map CanonicalMIMEHeaderKey ["X-XSS-Protection",
        "X-Frame-Options", "X-Content-Type-Options", "Strict-Transport-Security"] →
      (wrap.handed w r).header.Get name = w.header.Get name ∧
      (swrap.handed w r).header.Get name = w.header.Get name) ∧
    (r.TLS = none →
      (wrap.handed w r).header.entries "Strict-Transport-Security" =
        w.header.entries "Strict-Transport-Security") ∧
    ((wrap.handed w r).header.entries "Strict-Transport-Security" ≠ none ↔
      r.TLS ≠ none ∨ w.header.entries "Strict-Transport-Security" ≠ none) := by
  have frame : ∀ k : String,
      k ∉ List.map CanonicalMIMEHeaderKey ["X-XSS-Protection", "X-Frame-Options",
        "X-Content-Type-Options", "Strict-Transport-Security"] →
      (wrap.handed w r).header.entries k = w.header.entries k ∧
      (swrap.handed w r).header.entries k = w.header.entries k := by
    intro k hk
    simp only [List.map, canonical_xss, canonical_frame, canonical_cto, canonical_sts,
      List.mem_cons, List.mem_singleton, List.not_mem_nil, or_false, not_or] at hk
    obtain ⟨h1, h2, h3, h4⟩ := hk
    constructor
    · show (wrap.setHeaders w.header r).entries k = w.header.entries k
      rw [wrap_setHeaders_entries]
      simp [h1, h2, h3, h4]
    · show (swrap.setHeaders w.header r).entries k = w.header.entries k
      rw [swrap_setHeaders_entries]
      simp [h1, h2, h3, h4]
  refine ⟨rfl, rfl, rfl, rfl, rfl, rfl, frame, fun name hn => ?_, fun hT => ?_, ?_⟩
  · unfold Header.Get
    rw [(frame _ hn).1, (frame _ hn).2]
    exact ⟨rfl, rfl⟩
  · show (wrap.setHeaders w.header r).entries _ = _
    rw [wrap_setHeaders_entries]
    simp [hT]
  · show (wrap.setHeaders w.header r).entries _ ≠ none ↔ _
    rw [wrap_setHeaders_entries]
    by_cases hT : r.TLS = none <;> simp [hT]

/-- On a plain request and the header map of `usedWriter`, `New` leaves the two
values under `Strict-Transport-Security` and the absent `Content-Type` entry
as they were, while a request over TLS replaces the former. -/
theorem C11_frame_witness :
    plainRequest.TLS = none ∧
    (wrap.handed usedWriter plainRequest).header.entries "Strict-Transport-Security" =
      some ["max-age=0", "preload"] ∧
    (wrap.handed usedWriter secureRequest).header.entries "Content-Type" = none ∧
    (swrap.handed usedWriter secureRequest).header.Get "content-length" = "" :=
  ⟨rfl,
   ((C11_frame (ε := String) usedWriter plainRequest ()).2.2.2.2.2.2.2.2.1 rfl).trans
     (by decide),
   ((C11_frame (ε := String) usedWriter secureRequest ()).2.2.2.2.2.2.1 "Content-Type"
     (by decide)).1.trans (by decide),
   ((C11_frame (ε := String) usedWriter secureRequest ()).2.2.2.2.2.2.2.1 "content-length"
     (by decide)).2.trans (by decide)⟩

/-- C12. Chaining is absorbed.  For every wrapped handler `h`, response writer
`w` and request `r`, `New(New(h)).ServeHTTP(w, r)` has the outcome of
`New(h).ServeHTTP(w, r)`, `NewAlwaysSTS(NewAlwaysSTS(h))` that of
`NewAlwaysSTS(h)`, and both `New(NewAlwaysSTS(h))` and `NewAlwaysSTS(New(h))`
that of `NewAlwaysSTS(h)`. -/
theorem C12_chaining_absorbed {σ ε : Type} (h : Handler σ ε) (w : ResponseWriter)
    (r : Request) (s : σ) :
    (New (New h)).ServeHTTP w r s = (New h).ServeHTTP w r s ∧
    (NewAlwaysSTS (NewAlwaysSTS h)).ServeHTTP w r s = (NewAlwaysSTS h).ServeHTTP w r s ∧
    (New (NewAlwaysSTS h)).ServeHTTP w r s = (NewAlwaysSTS h).ServeHTTP w r s ∧
    (NewAlwaysSTS (New h)).ServeHTTP w r s = (NewAlwaysSTS h).ServeHTTP w r s := by
  refine ⟨?_, ?_, ?_, ?_⟩
  · show h.ServeHTTP ⟨wrap.setHeaders (wrap.setHeaders w.header r) r, w.status, w.body⟩ r s =
      h.ServeHTTP ⟨wrap.setHeaders w.header r, w.status, w.body⟩ r s
    rw [wrap_setHeaders_idem]
  · show h.ServeHTTP ⟨swrap.setHeaders (swrap.setHeaders w.header r) r, w.status, w.body⟩ r s =
      h.ServeHTTP ⟨swrap.setHeaders w.header r, w.status, w.body⟩ r s
    rw [swrap_setHeaders_idem]
  · show h.ServeHTTP ⟨swrap.setHeaders (wrap.setHeaders w.header r) r, w.status, w.body⟩ r s =
      h.ServeHTTP ⟨swrap.setHeaders w.header r, w.status, w.body⟩ r s
    rw [swrap_after_wrap]
  · show h.ServeHTTP ⟨wrap.setHeaders (swrap.setHeaders w.header r) r, w.status, w.body⟩ r s =
      h.ServeHTTP ⟨swrap.setHeaders w.header r, w.status, w.body⟩ r s
    rw [wrap_after_swrap]

end Secsurf
